import Mathlib

/-
Shallow embedding of the Lightning Web Component
force-app/main/default/lwc/parentCaseImageViewer/parentCaseImageViewer.js.
The component's tracked fields become a state record, each event handler a
pure state transformer, each getter a pure derivation. JS numbers are
modelled as exact rationals (every arithmetic operation the component
performs is exact in IEEE doubles on the values that arise); the image
index is an integer. console.error emissions (the diagnostic sink) are
counted per dispatched event by stepLogs. DOM-only effects (cursor style,
preventDefault) have no state and are not modelled.
-/

namespace ImageViewer

/-- One image record as delivered by the Apex controller: the
ContentVersion fields the component reads. -/
structure ImageDescriptor where
  Id : String
  Title : String
  FileExtension : String
  VersionDataUrl : Option String
deriving DecidableEq, Repr

/-- The data payload of a successful wire emission; the fields may be
absent, mirroring the JS reads data.images and data.fromParentCase that
are guarded by or-else defaults. -/
structure WirePayload where
  images : Option (List ImageDescriptor)
  fromParentCase : Option Bool
deriving DecidableEq, Repr

/-- One emission of the wire adapter: data set, error set, or neither
(the initial emission, where both are undefined). -/
inductive WireResult where
  | success (payload : WirePayload)
  | failure
  | blank
deriving DecidableEq, Repr

/-- The component's tracked fields (ParentCaseImageViewer class fields). -/
structure ViewerState where
  images : List ImageDescriptor
  currentImageIndex : ℤ
  errorMessage : String
  isLoading : Bool
  hasParentCase : Bool
  zoomLevel : ℚ
  panX : ℚ
  panY : ℚ
  isDragging : Bool
  dragStartX : ℚ
  dragStartY : ℚ
deriving DecidableEq, Repr

def minZoom : ℚ := 1
def maxZoom : ℚ := 4
def zoomStep : ℚ := 1/4

/-- Math.min on JS numbers (no NaN arises in this component). -/
def jsMin (a b : ℚ) : ℚ := if a ≤ b then a else b

/-- Math.max on JS numbers (no NaN arises in this component). -/
def jsMax (a b : ℚ) : ℚ := if b ≤ a then a else b

/-- Initial field values of the class. -/
def initState : ViewerState :=
  { images := []
    currentImageIndex := 0
    errorMessage := ""
    isLoading := true
    hasParentCase := false
    zoomLevel := 1
    panX := 0
    panY := 0
    isDragging := false
    dragStartX := 0
    dragStartY := 0 }

/-- resetZoomAndPan. -/
def resetZoomAndPan (s : ViewerState) : ViewerState :=
  { s with zoomLevel := 1, panX := 0, panY := 0 }

/-- wiredImages handler (state effect; its console.error on the error
branch is counted by stepLogs). -/
def wiredImages (s : ViewerState) (r : WireResult) : ViewerState :=
  match r with
  | .success payload =>
      if 0 < (payload.images.getD []).length then
        resetZoomAndPan
          { s with
              isLoading := false
              images := payload.images.getD []
              hasParentCase := payload.fromParentCase.getD false
              errorMessage := ""
              currentImageIndex := 0 }
      else
        { s with
            isLoading := false
            images := payload.images.getD []
            hasParentCase := payload.fromParentCase.getD false
            errorMessage := "" }
  | .failure =>
      { s with
          isLoading := false
          errorMessage := "Error loading images. Please refresh the page."
          images := []
          hasParentCase := false }
  | .blank => { s with isLoading := false }

/-- handlePrevious. -/
def handlePrevious (s : ViewerState) : ViewerState :=
  if 0 < s.currentImageIndex then
    resetZoomAndPan { s with currentImageIndex := s.currentImageIndex - 1 }
  else s

/-- handleNext. -/
def handleNext (s : ViewerState) : ViewerState :=
  if s.currentImageIndex < (s.images.length : ℤ) - 1 then
    resetZoomAndPan { s with currentImageIndex := s.currentImageIndex + 1 }
  else s

/-- handleImageError (state effect; its console.error is counted by
stepLogs). -/
def handleImageError (s : ViewerState) : ViewerState :=
  { s with errorMessage := "Unable to display this image. It may be in an unsupported format." }

/-- handleZoomIn. -/
def handleZoomIn (s : ViewerState) : ViewerState :=
  if s.zoomLevel < maxZoom then
    { s with zoomLevel := jsMin (s.zoomLevel + zoomStep) maxZoom }
  else s

/-- handleZoomOut; the inner branch mirrors the check this.zoomLevel ===
this.minZoom performed after the assignment. -/
def handleZoomOut (s : ViewerState) : ViewerState :=
  if minZoom < s.zoomLevel then
    if jsMax (s.zoomLevel - zoomStep) minZoom = minZoom then
      { s with zoomLevel := jsMax (s.zoomLevel - zoomStep) minZoom, panX := 0, panY := 0 }
    else
      { s with zoomLevel := jsMax (s.zoomLevel - zoomStep) minZoom }
  else s

/-- handleResetZoom. -/
def handleResetZoom (s : ViewerState) : ViewerState :=
  resetZoomAndPan s

/-- handleWheel (preventDefault is presentation-layer only). -/
def handleWheel (s : ViewerState) (deltaY : ℚ) : ViewerState :=
  if deltaY < 0 then handleZoomIn s else handleZoomOut s

/-- handleMouseDown at pointer (x, y); cursor styling is DOM-only. -/
def handleMouseDown (s : ViewerState) (x y : ℚ) : ViewerState :=
  if 1 < s.zoomLevel then
    { s with
        isDragging := true
        dragStartX := x - s.panX
        dragStartY := y - s.panY }
  else s

/-- handleMouseUp; cursor styling is DOM-only. -/
def handleMouseUp (s : ViewerState) : ViewerState :=
  { s with isDragging := false }

/-- handleMouseLeave. -/
def handleMouseLeave (s : ViewerState) : ViewerState :=
  if s.isDragging then handleMouseUp s else s

/-- handleMouseMove at pointer (x, y); newPanX, newPanY and maxPan of the
source are inlined. -/
def handleMouseMove (s : ViewerState) (x y : ℚ) : ViewerState :=
  if s.isDragging = true ∧ 1 < s.zoomLevel then
    { s with
        panX := jsMax (-(100 * s.zoomLevel)) (jsMin (100 * s.zoomLevel) (x - s.dragStartX))
        panY := jsMax (-(100 * s.zoomLevel)) (jsMin (100 * s.zoomLevel) (y - s.dragStartY)) }
  else s

/-- Getter currentImageUrl. -/
def currentImageUrl (s : ViewerState) : String :=
  if 0 < s.images.length ∧ s.currentImageIndex < (s.images.length : ℤ) then
    match s.images.get? s.currentImageIndex.toNat with
    | some image =>
        match image.VersionDataUrl with
        | some u => u
        | none =>
            "/sfc/servlet.shepherd/version/renditionDownload?rendition=THUMB720BY480&versionId="
              ++ image.Id
    | none => ""
  else ""

/-- Getter currentImageTitle. -/
def currentImageTitle (s : ViewerState) : String :=
  if 0 < s.images.length ∧ s.currentImageIndex < (s.images.length : ℤ) then
    match s.images.get? s.currentImageIndex.toNat with
    | some image => image.Title ++ "." ++ image.FileExtension
    | none => ""
  else ""

/-- Getter imageCounter. -/
def imageCounter (s : ViewerState) : String :=
  if 0 < s.images.length then
    "Image " ++ toString (s.currentImageIndex + 1) ++ " of " ++ toString s.images.length
  else ""

/-- Getter isMaxZoom. -/
def isMaxZoom (s : ViewerState) : Bool :=
  decide (maxZoom ≤ s.zoomLevel)

/-- Getter isMinZoom. -/
def isMinZoom (s : ViewerState) : Bool :=
  decide (s.zoomLevel ≤ minZoom)

/-- Getter hasImages: not loading, a nonempty set, and no error message
(the empty string is falsy in JS). -/
def hasImages (s : ViewerState) : Bool :=
  !s.isLoading && decide (0 < s.images.length) && decide (s.errorMessage = "")

/-- Getter showNoImagesMessage. -/
def showNoImagesMessage (s : ViewerState) : Bool :=
  !s.isLoading && decide (s.images.length = 0) && decide (s.errorMessage = "")

/-- Getter isFirstImage. -/
def isFirstImage (s : ViewerState) : Bool :=
  decide (s.currentImageIndex = 0)

/-- Getter isLastImage. -/
def isLastImage (s : ViewerState) : Bool :=
  decide (s.currentImageIndex = (s.images.length : ℤ) - 1)

/-- Getter cardTitle. -/
def cardTitle (s : ViewerState) : String :=
  if s.hasParentCase then "Parent Case Images" else "Case Images"

/-- Getter noImagesMessage. -/
def noImagesMessage (s : ViewerState) : String :=
  if s.hasParentCase then "No images found on the parent case."
  else "No images found on this case."

/-- Every externally triggerable event of the component. -/
inductive Action where
  | wire (r : WireResult)
  | previous
  | next
  | imageError
  | resetZoom
  | zoomIn
  | zoomOut
  | wheel (deltaY : ℚ)
  | mouseDown (x y : ℚ)
  | mouseUp
  | mouseLeave
  | mouseMove (x y : ℚ)
deriving DecidableEq, Repr

/-- One event dispatch. -/
def step (s : ViewerState) (a : Action) : ViewerState :=
  match a with
  | .wire r => wiredImages s r
  | .previous => handlePrevious s
  | .next => handleNext s
  | .imageError => handleImageError s
  | .resetZoom => handleResetZoom s
  | .zoomIn => handleZoomIn s
  | .zoomOut => handleZoomOut s
  | .wheel d => handleWheel s d
  | .mouseDown x y => handleMouseDown s x y
  | .mouseUp => handleMouseUp s
  | .mouseLeave => handleMouseLeave s
  | .mouseMove x y => handleMouseMove s x y

/-- Diagnostic-log entries (console.error calls) emitted by one event
dispatch: one on the wire error branch, one in handleImageError, none
elsewhere. -/
def stepLogs (a : Action) : Nat :=
  match a with
  | .wire .failure => 1
  | .imageError => 1
  | _ => 0

/-- Run an event trace from the initial state. -/
def run (acts : List Action) : ViewerState :=
  acts.foldl step initState

/-- Sample image records used in concrete traces. -/
def imgA : ImageDescriptor := ⟨"068A1", "apple", "png", none⟩

def imgB : ImageDescriptor := ⟨"068B2", "banana", "jpg", none⟩

def imgC : ImageDescriptor := ⟨"068C3", "cherry", "heic", none⟩

/-- The state invariant maintained by every reachable state: zoom lies on
the quarter grid inside [1, 4], pan is at the origin whenever zoom is at
the minimum, and the index is never negative. -/
def Inv (s : ViewerState) : Prop :=
  1 ≤ s.zoomLevel ∧ s.zoomLevel ≤ 4 ∧ (∃ k : ℤ, s.zoomLevel = 1 + k * (1/4)) ∧
  (s.zoomLevel = 1 → s.panX = 0 ∧ s.panY = 0) ∧ 0 ≤ s.currentImageIndex

/-- Per-axis pan bound relative to the state's own zoom level. -/
def PanBounded (s : ViewerState) : Prop :=
  -(100 * s.zoomLevel) ≤ s.panX ∧ s.panX ≤ 100 * s.zoomLevel ∧
  -(100 * s.zoomLevel) ≤ s.panY ∧ s.panY ≤ 100 * s.zoomLevel



/-- jsMin agrees with the lattice min on the rationals. -/
theorem jsMin_eq (a b : ℚ) : jsMin a b = min a b := by
  unfold jsMin
  by_cases h : a ≤ b
  · rw [if_pos h, min_eq_left h]
  · rw [if_neg h, min_eq_right (le_of_not_le h)]

/-- jsMax agrees with the lattice max on the rationals. -/
theorem jsMax_eq (a b : ℚ) : jsMax a b = max a b := by
  unfold jsMax
  by_cases h : b ≤ a
  · rw [if_pos h, max_eq_left h]
  · rw [if_neg h, max_eq_right (le_of_not_le h)]

theorem Inv_resetZoomAndPan (s : ViewerState) (h : 0 ≤ s.currentImageIndex) :
    Inv (resetZoomAndPan s) :=
  ⟨le_refl 1, by show (1:ℚ) ≤ 4; norm_num, ⟨0, by show (1:ℚ) = 1 + 0 * (1/4); norm_num⟩,
    fun _ => ⟨rfl, rfl⟩, h⟩

theorem Inv_handleZoomIn (s : ViewerState) (h : Inv s) : Inv (handleZoomIn s) := by
  obtain ⟨h1, h4, ⟨k, hk⟩, hp, hi⟩ := h
  unfold handleZoomIn
  split
  case isTrue hlt =>
    refine ⟨?_, ?_, ?_, ?_, hi⟩
    · show (1:ℚ) ≤ jsMin (s.zoomLevel + zoomStep) maxZoom
      rw [jsMin_eq]
      exact le_min (by unfold zoomStep; linarith) (by norm_num [maxZoom])
    · show jsMin (s.zoomLevel + zoomStep) maxZoom ≤ 4
      rw [jsMin_eq]
      exact le_trans (min_le_right _ _) (by norm_num [maxZoom])
    · show ∃ j : ℤ, jsMin (s.zoomLevel + zoomStep) maxZoom = 1 + j * (1/4)
      rw [jsMin_eq]
      rcases le_total (s.zoomLevel + zoomStep) maxZoom with hc | hc
      · exact ⟨k + 1, by rw [min_eq_left hc, hk]; unfold zoomStep; push_cast; ring⟩
      · exact ⟨12, by rw [min_eq_right hc]; norm_num [maxZoom]⟩
    · intro hz
      have h54 : (5/4 : ℚ) ≤ jsMin (s.zoomLevel + zoomStep) maxZoom := by
        rw [jsMin_eq]
        exact le_min (by unfold zoomStep; linarith) (by norm_num [maxZoom])
      rw [show ({ s with zoomLevel := jsMin (s.zoomLevel + zoomStep) maxZoom } : ViewerState).zoomLevel
            = jsMin (s.zoomLevel + zoomStep) maxZoom from rfl] at hz
      rw [hz] at h54
      norm_num at h54
  case isFalse =>
    exact ⟨h1, h4, ⟨k, hk⟩, hp, hi⟩

theorem Inv_handleZoomOut (s : ViewerState) (h : Inv s) : Inv (handleZoomOut s) := by
  obtain ⟨h1, h4, ⟨k, hk⟩, hp, hi⟩ := h
  have hlow : (1:ℚ) ≤ jsMax (s.zoomLevel - zoomStep) minZoom := by
    rw [jsMax_eq]
    exact le_trans (by norm_num [minZoom]) (le_max_right _ _)
  have hhigh : jsMax (s.zoomLevel - zoomStep) minZoom ≤ 4 := by
    rw [jsMax_eq]
    exact max_le (by unfold zoomStep; linarith) (by norm_num [minZoom])
  have hgrid : ∃ j : ℤ, jsMax (s.zoomLevel - zoomStep) minZoom = 1 + j * (1/4) := by
    rw [jsMax_eq]
    rcases le_total (s.zoomLevel - zoomStep) minZoom with hc | hc
    · exact ⟨0, by rw [max_eq_right hc]; norm_num [minZoom]⟩
    · exact ⟨k - 1, by rw [max_eq_left hc, hk]; unfold zoomStep; push_cast; ring⟩
  unfold handleZoomOut
  split
  case isTrue hgt =>
    split
    case isTrue heq =>
      exact ⟨hlow, hhigh, hgrid, fun _ => ⟨rfl, rfl⟩, hi⟩
    case isFalse hne =>
      exact ⟨hlow, hhigh, hgrid, fun hz => absurd hz hne, hi⟩
  case isFalse =>
    exact ⟨h1, h4, ⟨k, hk⟩, hp, hi⟩

theorem Inv_step (s : ViewerState) (a : Action) (h : Inv s) : Inv (step s a) := by
  obtain ⟨h1, h4, hg, hp, hi⟩ := h
  cases a with
  | wire r =>
    cases r with
    | success payload =>
      show Inv (wiredImages s (.success payload))
      simp only [wiredImages]
      split
      case isTrue hlen => exact Inv_resetZoomAndPan _ (le_refl 0)
      case isFalse => exact ⟨h1, h4, hg, hp, hi⟩
    | failure => exact ⟨h1, h4, hg, hp, hi⟩
    | blank => exact ⟨h1, h4, hg, hp, hi⟩
  | previous =>
    show Inv (handlePrevious s)
    unfold handlePrevious
    split
    case isTrue hpos =>
      exact Inv_resetZoomAndPan _ (by show (0:ℤ) ≤ s.currentImageIndex - 1; omega)
    case isFalse => exact ⟨h1, h4, hg, hp, hi⟩
  | next =>
    show Inv (handleNext s)
    unfold handleNext
    split
    case isTrue hlt =>
      exact Inv_resetZoomAndPan _ (by show (0:ℤ) ≤ s.currentImageIndex + 1; omega)
    case isFalse => exact ⟨h1, h4, hg, hp, hi⟩
  | imageError => exact ⟨h1, h4, hg, hp, hi⟩
  | resetZoom => exact Inv_resetZoomAndPan s hi
  | zoomIn => exact Inv_handleZoomIn s ⟨h1, h4, hg, hp, hi⟩
  | zoomOut => exact Inv_handleZoomOut s ⟨h1, h4, hg, hp, hi⟩
  | wheel d =>
    show Inv (handleWheel s d)
    unfold handleWheel
    split
    · exact Inv_handleZoomIn s ⟨h1, h4, hg, hp, hi⟩
    · exact Inv_handleZoomOut s ⟨h1, h4, hg, hp, hi⟩
  | mouseDown x y =>
    show Inv (handleMouseDown s x y)
    unfold handleMouseDown
    split
    · exact ⟨h1, h4, hg, hp, hi⟩
    · exact ⟨h1, h4, hg, hp, hi⟩
  | mouseUp => exact ⟨h1, h4, hg, hp, hi⟩
  | mouseLeave =>
    show Inv (handleMouseLeave s)
    unfold handleMouseLeave
    split
    · exact ⟨h1, h4, hg, hp, hi⟩
    · exact ⟨h1, h4, hg, hp, hi⟩
  | mouseMove x y =>
    show Inv (handleMouseMove s x y)
    unfold handleMouseMove
    split
    case isTrue hc => exact ⟨h1, h4, hg, fun hz => absurd hz (ne_of_gt hc.2), hi⟩
    case isFalse => exact ⟨h1, h4, hg, hp, hi⟩

theorem Inv_initState : Inv initState :=
  ⟨le_refl 1, by show (1:ℚ) ≤ 4; norm_num, ⟨0, by show (1:ℚ) = 1 + 0 * (1/4); norm_num⟩,
    fun _ => ⟨rfl, rfl⟩, le_refl 0⟩

theorem Inv_foldl (acts : List Action) : ∀ s : ViewerState, Inv s → Inv (acts.foldl step s) := by
  induction acts with
  | nil => exact fun s h => h
  | cons a l ih => exact fun s h => ih (step s a) (Inv_step s a h)

theorem Inv_run (acts : List Action) : Inv (run acts) :=
  Inv_foldl acts initState Inv_initState


theorem handleMouseMove_frame (s : ViewerState) (x y : ℚ) :
    (handleMouseMove s x y).zoomLevel = s.zoomLevel ∧
    (handleMouseMove s x y).isDragging = s.isDragging ∧
    (handleMouseMove s x y).dragStartX = s.dragStartX ∧
    (handleMouseMove s x y).dragStartY = s.dragStartY := by
  unfold handleMouseMove
  split
  · exact ⟨rfl, rfl, rfl, rfl⟩
  · exact ⟨rfl, rfl, rfl, rfl⟩

theorem handleMouseMove_pan (s : ViewerState) (x y : ℚ)
    (hd : s.isDragging = true) (hz : 1 < s.zoomLevel) :
    (handleMouseMove s x y).panX
      = max (-(100 * s.zoomLevel)) (min (100 * s.zoomLevel) (x - s.dragStartX)) ∧
    (handleMouseMove s x y).panY
      = max (-(100 * s.zoomLevel)) (min (100 * s.zoomLevel) (y - s.dragStartY)) := by
  unfold handleMouseMove
  rw [if_pos ⟨hd, hz⟩]
  constructor
  · show jsMax (-(100 * s.zoomLevel)) (jsMin (100 * s.zoomLevel) (x - s.dragStartX)) = _
    rw [jsMax_eq, jsMin_eq]
  · show jsMax (-(100 * s.zoomLevel)) (jsMin (100 * s.zoomLevel) (y - s.dragStartY)) = _
    rw [jsMax_eq, jsMin_eq]

theorem clamp_bound (M v : ℚ) (hM : 0 ≤ M) :
    -M ≤ max (-M) (min M v) ∧ max (-M) (min M v) ≤ M :=
  ⟨le_max_left _ _, max_le (by linarith) (min_le_left _ _)⟩

theorem handleMouseMove_bounded (s : ViewerState) (x y : ℚ)
    (hd : s.isDragging = true) (hz : 1 < s.zoomLevel) :
    PanBounded (handleMouseMove s x y) := by
  have hM : (0:ℚ) ≤ 100 * s.zoomLevel := by positivity
  obtain ⟨p1, p2⟩ := handleMouseMove_pan s x y hd hz
  obtain ⟨e1, _, _, _⟩ := handleMouseMove_frame s x y
  refine ⟨?_, ?_, ?_, ?_⟩
  · rw [e1, p1]; exact (clamp_bound _ _ hM).1
  · rw [e1, p1]; exact (clamp_bound _ _ hM).2
  · rw [e1, p2]; exact (clamp_bound _ _ hM).1
  · rw [e1, p2]; exact (clamp_bound _ _ hM).2

theorem dragFold_zoom (moves : List (ℚ × ℚ)) :
    ∀ s : ViewerState,
      (moves.foldl (fun u p => step u (Action.mouseMove p.1 p.2)) s).zoomLevel = s.zoomLevel := by
  induction moves with
  | nil => exact fun s => rfl
  | cons m l ih =>
    intro s
    rw [List.foldl_cons, ih (step s (Action.mouseMove m.1 m.2))]
    exact (handleMouseMove_frame s m.1 m.2).1

theorem dragFold_bounded (moves : List (ℚ × ℚ)) :
    ∀ s : ViewerState, s.isDragging = true → 1 < s.zoomLevel → PanBounded s →
      PanBounded (moves.foldl (fun u p => step u (Action.mouseMove p.1 p.2)) s) := by
  induction moves with
  | nil => exact fun s _ _ hb => hb
  | cons m l ih =>
    intro s hd hz hb
    obtain ⟨e1, e2, _, _⟩ := handleMouseMove_frame s m.1 m.2
    rw [List.foldl_cons]
    exact ih (step s (Action.mouseMove m.1 m.2))
      (by rw [show step s (Action.mouseMove m.1 m.2) = handleMouseMove s m.1 m.2 from rfl, e2]; exact hd)
      (by rw [show step s (Action.mouseMove m.1 m.2) = handleMouseMove s m.1 m.2 from rfl, e1]; exact hz)
      (handleMouseMove_bounded s m.1 m.2 hd hz)

/-- Claim C3: for every sequence of actions (hence in particular every
sequence of ZoomIn and ZoomOut presses, including those routed through the
wheel handler) starting from the initial state, the zoom level stays in
the closed interval [1, 4] and is always of the form 1 + k * 0.25 for some
integer k; and pressing ZoomIn 13 times from zoom 1 leaves zoom exactly 4
(clamped, not 4.25) with isMaxZoom true. -/
theorem C3_zoom_grid_clamped (acts : List Action) :
    (1 ≤ (run acts).zoomLevel ∧ (run acts).zoomLevel ≤ 4 ∧
      ∃ k : ℤ, (run acts).zoomLevel = 1 + k * (1/4)) ∧
    ((run (List.replicate 13 Action.zoomIn)).zoomLevel = 4 ∧
      isMaxZoom (run (List.replicate 13 Action.zoomIn)) = true) := by
  obtain ⟨h1, h4, hg, _, _⟩ := Inv_run acts
  have hz : (run (List.replicate 13 Action.zoomIn)).zoomLevel = 4 := by
    simp [run, step, initState, handleZoomIn, jsMin, minZoom, maxZoom, zoomStep]
    norm_num
  refine ⟨⟨h1, h4, hg⟩, hz, ?_⟩
  unfold isMaxZoom
  rw [hz]
  norm_num [maxZoom]

/-- Claim C5: in every state reachable by any sequence of loader results
and user actions from the initial state, whenever the zoom level equals 1
the pan offset is (0, 0). -/
theorem C5_zoom_one_pan_origin (acts : List Action) (h : (run acts).zoomLevel = 1) :
    (run acts).panX = 0 ∧ (run acts).panY = 0 :=
  (Inv_run acts).2.2.2.1 h

theorem C5_zoom_one_pan_origin_witness :
    (run []).panX = 0 ∧ (run []).panY = 0 :=
  C5_zoom_one_pan_origin [] rfl


/-- Claim C4: from a state with isDragging set and zoom above the
minimum, each DragMove sets pan to (pointerX - anchor.x, pointerY -
anchor.y) clamped per axis to [-100 * zoom, 100 * zoom], and after any
nonempty sequence of DragMove events both pan components remain within
that range (the zoom level is unchanged by DragMove). The witness
instantiates the drag from pointer (50, 50) to (500, 500) at zoom 2,
which yields pan (200, 200) rather than (450, 450). -/
theorem C4_dragmove_clamped (s : ViewerState) (moves : List (ℚ × ℚ))
    (hd : s.isDragging = true) (hz : 1 < s.zoomLevel) (hne : moves ≠ []) :
    (∀ x y : ℚ,
      (step s (Action.mouseMove x y)).panX
        = max (-(100 * s.zoomLevel)) (min (100 * s.zoomLevel) (x - s.dragStartX)) ∧
      (step s (Action.mouseMove x y)).panY
        = max (-(100 * s.zoomLevel)) (min (100 * s.zoomLevel) (y - s.dragStartY))) ∧
    (-(100 * s.zoomLevel)
        ≤ (moves.foldl (fun u p => step u (Action.mouseMove p.1 p.2)) s).panX ∧
      (moves.foldl (fun u p => step u (Action.mouseMove p.1 p.2)) s).panX ≤ 100 * s.zoomLevel ∧
      -(100 * s.zoomLevel)
        ≤ (moves.foldl (fun u p => step u (Action.mouseMove p.1 p.2)) s).panY ∧
      (moves.foldl (fun u p => step u (Action.mouseMove p.1 p.2)) s).panY ≤ 100 * s.zoomLevel) := by
  refine ⟨fun x y => handleMouseMove_pan s x y hd hz, ?_⟩
  cases moves with
  | nil => exact absurd rfl hne
  | cons m l =>
    obtain ⟨e1, e2, _, _⟩ := handleMouseMove_frame s m.1 m.2
    have hb : PanBounded (l.foldl (fun u p => step u (Action.mouseMove p.1 p.2))
        (step s (Action.mouseMove m.1 m.2))) :=
      dragFold_bounded l (step s (Action.mouseMove m.1 m.2))
        (by rw [show step s (Action.mouseMove m.1 m.2) = handleMouseMove s m.1 m.2 from rfl, e2]; exact hd)
        (by rw [show step s (Action.mouseMove m.1 m.2) = handleMouseMove s m.1 m.2 from rfl, e1]; exact hz)
        (handleMouseMove_bounded s m.1 m.2 hd hz)
    have hzeq : (l.foldl (fun u p => step u (Action.mouseMove p.1 p.2))
        (step s (Action.mouseMove m.1 m.2))).zoomLevel = s.zoomLevel := by
      rw [dragFold_zoom l (step s (Action.mouseMove m.1 m.2))]
      exact e1
    obtain ⟨b1, b2, b3, b4⟩ := hb
    rw [hzeq] at b1 b2 b3 b4
    rw [List.foldl_cons]
    exact ⟨b1, b2, b3, b4⟩

theorem C4_dragmove_clamped_witness :
    ((run [Action.wire (.success ⟨some [imgA], some false⟩), Action.zoomIn, Action.zoomIn,
        Action.zoomIn, Action.zoomIn, Action.mouseDown 50 50]).isDragging = true ∧
      1 < (run [Action.wire (.success ⟨some [imgA], some false⟩), Action.zoomIn, Action.zoomIn,
        Action.zoomIn, Action.zoomIn, Action.mouseDown 50 50]).zoomLevel ∧
      ([((500:ℚ), (500:ℚ))] ≠ ([] : List (ℚ × ℚ)))) ∧
    (([((500:ℚ), (500:ℚ))].foldl (fun u p => step u (Action.mouseMove p.1 p.2))
        (run [Action.wire (.success ⟨some [imgA], some false⟩), Action.zoomIn, Action.zoomIn,
          Action.zoomIn, Action.zoomIn, Action.mouseDown 50 50])).panX = 200 ∧
      ([((500:ℚ), (500:ℚ))].foldl (fun u p => step u (Action.mouseMove p.1 p.2))
        (run [Action.wire (.success ⟨some [imgA], some false⟩), Action.zoomIn, Action.zoomIn,
          Action.zoomIn, Action.zoomIn, Action.mouseDown 50 50])).panY = 200) ∧
    (-(100 * (run [Action.wire (.success ⟨some [imgA], some false⟩), Action.zoomIn, Action.zoomIn,
          Action.zoomIn, Action.zoomIn, Action.mouseDown 50 50]).zoomLevel)
        ≤ ([((500:ℚ), (500:ℚ))].foldl (fun u p => step u (Action.mouseMove p.1 p.2))
            (run [Action.wire (.success ⟨some [imgA], some false⟩), Action.zoomIn, Action.zoomIn,
              Action.zoomIn, Action.zoomIn, Action.mouseDown 50 50])).panX ∧
      ([((500:ℚ), (500:ℚ))].foldl (fun u p => step u (Action.mouseMove p.1 p.2))
          (run [Action.wire (.success ⟨some [imgA], some false⟩), Action.zoomIn, Action.zoomIn,
            Action.zoomIn, Action.zoomIn, Action.mouseDown 50 50])).panX
        ≤ 100 * (run [Action.wire (.success ⟨some [imgA], some false⟩), Action.zoomIn, Action.zoomIn,
            Action.zoomIn, Action.zoomIn, Action.mouseDown 50 50]).zoomLevel) := by
  have hd : (run [Action.wire (.success ⟨some [imgA], some false⟩), Action.zoomIn, Action.zoomIn,
      Action.zoomIn, Action.zoomIn, Action.mouseDown 50 50]).isDragging = true := by
    simp [run, step, initState, wiredImages, resetZoomAndPan, handleZoomIn, handleMouseDown,
      jsMin, jsMax, minZoom, maxZoom, zoomStep, imgA]
    norm_num
  have hz : 1 < (run [Action.wire (.success ⟨some [imgA], some false⟩), Action.zoomIn, Action.zoomIn,
      Action.zoomIn, Action.zoomIn, Action.mouseDown 50 50]).zoomLevel := by
    simp [run, step, initState, wiredImages, resetZoomAndPan, handleZoomIn, handleMouseDown,
      jsMin, jsMax, minZoom, maxZoom, zoomStep, imgA]
    norm_num
  have hpan : ([((500:ℚ), (500:ℚ))].foldl (fun u p => step u (Action.mouseMove p.1 p.2))
      (run [Action.wire (.success ⟨some [imgA], some false⟩), Action.zoomIn, Action.zoomIn,
        Action.zoomIn, Action.zoomIn, Action.mouseDown 50 50])).panX = 200 ∧
      ([((500:ℚ), (500:ℚ))].foldl (fun u p => step u (Action.mouseMove p.1 p.2))
      (run [Action.wire (.success ⟨some [imgA], some false⟩), Action.zoomIn, Action.zoomIn,
        Action.zoomIn, Action.zoomIn, Action.mouseDown 50 50])).panY = 200 := by
    constructor
    · simp [run, step, initState, wiredImages, resetZoomAndPan, handleZoomIn, handleMouseDown,
        handleMouseMove, jsMin, jsMax, minZoom, maxZoom, zoomStep, imgA]
      norm_num
    · simp [run, step, initState, wiredImages, resetZoomAndPan, handleZoomIn, handleMouseDown,
        handleMouseMove, jsMin, jsMax, minZoom, maxZoom, zoomStep, imgA]
      norm_num
  have happ := C4_dragmove_clamped _ [((500:ℚ), (500:ℚ))] hd hz (by simp)
  exact ⟨⟨hd, hz, by simp⟩, hpan, happ.2.1, happ.2.2.1⟩


/-- Claim C7: navigation is saturating, not cyclic. Previous at index 0
and Next at the last index are exact no-ops on any state with a nonempty
image set; and in a concrete 3-image set, Next twice from index 0 gives
index 2 with isLastImage true, and a further Next leaves index 2. -/
theorem C7_navigation_saturating (s t : ViewerState)
    (_hs0 : s.images ≠ []) (hs : s.currentImageIndex = 0)
    (_ht0 : t.images ≠ []) (ht : t.currentImageIndex = (t.images.length : ℤ) - 1) :
    step s Action.previous = s ∧ step t Action.next = t ∧
    ((run [Action.wire (.success ⟨some [imgA, imgB, imgC], some false⟩),
        Action.next, Action.next]).currentImageIndex = 2 ∧
      isLastImage (run [Action.wire (.success ⟨some [imgA, imgB, imgC], some false⟩),
        Action.next, Action.next]) = true ∧
      (run [Action.wire (.success ⟨some [imgA, imgB, imgC], some false⟩),
        Action.next, Action.next, Action.next]).currentImageIndex = 2) := by
  refine ⟨?_, ?_, by decide, by decide, by decide⟩
  · show handlePrevious s = s
    unfold handlePrevious
    rw [if_neg (by omega)]
  · show handleNext t = t
    unfold handleNext
    rw [if_neg (by omega)]

theorem C7_navigation_saturating_witness :
    ((run [Action.wire (.success ⟨some [imgA, imgB, imgC], some false⟩)]).images ≠ [] ∧
      (run [Action.wire (.success ⟨some [imgA, imgB, imgC], some false⟩)]).currentImageIndex = 0 ∧
      (run [Action.wire (.success ⟨some [imgA, imgB, imgC], some false⟩),
        Action.next, Action.next]).images ≠ [] ∧
      (run [Action.wire (.success ⟨some [imgA, imgB, imgC], some false⟩),
          Action.next, Action.next]).currentImageIndex
        = ((run [Action.wire (.success ⟨some [imgA, imgB, imgC], some false⟩),
            Action.next, Action.next]).images.length : ℤ) - 1) ∧
    (step (run [Action.wire (.success ⟨some [imgA, imgB, imgC], some false⟩)]) Action.previous
        = run [Action.wire (.success ⟨some [imgA, imgB, imgC], some false⟩)] ∧
      step (run [Action.wire (.success ⟨some [imgA, imgB, imgC], some false⟩),
          Action.next, Action.next]) Action.next
        = run [Action.wire (.success ⟨some [imgA, imgB, imgC], some false⟩),
          Action.next, Action.next]) := by
  have h := C7_navigation_saturating
    (run [Action.wire (.success ⟨some [imgA, imgB, imgC], some false⟩)])
    (run [Action.wire (.success ⟨some [imgA, imgB, imgC], some false⟩), Action.next, Action.next])
    (by decide) (by decide) (by decide) (by decide)
  exact ⟨⟨by decide, by decide, by decide, by decide⟩, h.1, h.2.1⟩

/-- Claim C8: a wire failure leaves the image set empty, records the
fetch error message, emits exactly one diagnostic-log entry, and issues no
automatic retry (the handler contains no further query call; it leaves
isLoading false). -/
theorem C8_fetch_failure (s : ViewerState) :
    (step s (Action.wire .failure)).images = [] ∧
    (step s (Action.wire .failure)).errorMessage
      = "Error loading images. Please refresh the page." ∧
    (step s (Action.wire .failure)).isLoading = false ∧
    stepLogs (Action.wire .failure) = 1 :=
  ⟨rfl, rfl, rfl, rfl⟩

/-- Claim C9: the ImageRenderFailure action sets the error message to
the generic unsupported-format notice and changes no other state field:
images, index, zoom, pan, loading, source flag and drag state are all
unchanged, exactly one diagnostic-log entry is emitted, and a subsequent
Next behaves exactly as it would have without the render failure, so
navigation remains possible. -/
theorem C9_render_failure_frame (s : ViewerState) :
    (step s Action.imageError).errorMessage
      = "Unable to display this image. It may be in an unsupported format." ∧
    (step s Action.imageError).images = s.images ∧
    (step s Action.imageError).currentImageIndex = s.currentImageIndex ∧
    (step s Action.imageError).zoomLevel = s.zoomLevel ∧
    (step s Action.imageError).panX = s.panX ∧
    (step s Action.imageError).panY = s.panY ∧
    (step s Action.imageError).isLoading = s.isLoading ∧
    (step s Action.imageError).hasParentCase = s.hasParentCase ∧
    (step s Action.imageError).isDragging = s.isDragging ∧
    (step s Action.imageError).dragStartX = s.dragStartX ∧
    (step s Action.imageError).dragStartY = s.dragStartY ∧
    stepLogs Action.imageError = 1 ∧
    (step (step s Action.imageError) Action.next).currentImageIndex
      = (step s Action.next).currentImageIndex := by
  refine ⟨rfl, rfl, rfl, rfl, rfl, rfl, rfl, rfl, rfl, rfl, rfl, rfl, ?_⟩
  show (handleNext (handleImageError s)).currentImageIndex = (handleNext s).currentImageIndex
  unfold handleNext handleImageError
  by_cases hc : s.currentImageIndex < (s.images.length : ℤ) - 1
  · rw [if_pos hc, if_pos hc]; rfl
  · rw [if_neg hc, if_neg hc]


/-- Claim C1, counterexample: the claim says a stale response (to an
earlier-issued query) that is delivered after a newer response must be
discarded. Deliver the newer query B's response first and the stale query
A's response second: the final state holds A's image, not B's, so the
stale response overwrote the newer result and no latest-requested
identifier comparison exists. -/
theorem C1_stale_overwrite_counterexample :
    (run [Action.wire (.success ⟨some [imgB], some false⟩),
        Action.wire (.success ⟨some [imgA], some false⟩)]).images = [imgA] ∧ imgA ≠ imgB := by
  decide

/-- Claim C1, amended: wiredImages applies every delivered successful
response unconditionally, replacing the image set with the delivered
payload and clearing the error message regardless of the current state;
the component itself tracks no latest-requested identifier. -/
theorem C1_unconditional_apply (s : ViewerState) (p : WirePayload) :
    (step s (Action.wire (.success p))).images = p.images.getD [] ∧
    (step s (Action.wire (.success p))).errorMessage = "" := by
  show (wiredImages s (.success p)).images = p.images.getD [] ∧
    (wiredImages s (.success p)).errorMessage = ""
  simp only [wiredImages]
  split
  · exact ⟨rfl, rfl⟩
  · exact ⟨rfl, rfl⟩

/-- Claim C2, counterexample: after a successful load of one image
followed by ImageRenderFailure, the error message is set while the image
set still has length 1, so an error message being set does not imply the
image set is empty. -/
theorem C2_error_nonempty_counterexample :
    (run [Action.wire (.success ⟨some [imgA], some false⟩), Action.imageError]).errorMessage ≠ "" ∧
    (run [Action.wire (.success ⟨some [imgA], some false⟩), Action.imageError]).images.length = 1 := by
  decide

/-- Claim C2, amended: an error message being set is mutually exclusive
with hasImages (the set being ready for display), and the wire-failure
transition itself empties the image set and sets the error message; but
after a render failure the error message can coexist with a nonempty
image set. -/
theorem C2_error_excludes_ready (s : ViewerState) (h : s.errorMessage ≠ "") :
    hasImages s = false ∧
    (step s (Action.wire .failure)).images = [] ∧
    (step s (Action.wire .failure)).errorMessage ≠ "" := by
  refine ⟨?_, rfl, ?_⟩
  · unfold hasImages
    rw [decide_eq_false h, Bool.and_false]
  · show ("Error loading images. Please refresh the page." : String) ≠ ""
    decide

theorem C2_error_excludes_ready_witness :
    (run [Action.imageError]).errorMessage ≠ "" ∧
    (hasImages (run [Action.imageError]) = false ∧
      (step (run [Action.imageError]) (Action.wire .failure)).images = [] ∧
      (step (run [Action.imageError]) (Action.wire .failure)).errorMessage ≠ "") :=
  ⟨by decide, C2_error_excludes_ready (run [Action.imageError]) (by decide)⟩

/-- Claim C6, counterexample: the claim says the view state is reset on
every ImageSet replacement including replacement by an empty set. Load one
image, zoom in, then deliver an empty set: the image set is replaced by
the empty set but the zoom level is still not 1, so no reset happened. -/
theorem C6_empty_replacement_counterexample :
    (run [Action.wire (.success ⟨some [imgA], some false⟩), Action.zoomIn,
        Action.wire (.success ⟨some [], some false⟩)]).images = [] ∧
    (run [Action.wire (.success ⟨some [imgA], some false⟩), Action.zoomIn,
        Action.wire (.success ⟨some [], some false⟩)]).zoomLevel ≠ 1 := by
  constructor
  · decide
  · simp [run, step, initState, wiredImages, resetZoomAndPan, handleZoomIn,
      jsMin, minZoom, maxZoom, zoomStep, imgA]
    norm_num

/-- Claim C6, amended: Previous and Next reset zoom to 1 and pan to
(0, 0) whenever they change the selected index, and the arrival of a
nonempty image set resets the index to 0 and zoom/pan to their defaults;
but replacement by an empty image set resets nothing: index, zoom and pan
are all left unchanged. -/
theorem C6_reset_on_index_change (s t : ViewerState) (p q : WirePayload)
    (hs : (step s Action.previous).currentImageIndex ≠ s.currentImageIndex)
    (ht : (step t Action.next).currentImageIndex ≠ t.currentImageIndex)
    (hp : p.images.getD [] ≠ [])
    (hq : q.images.getD [] = []) :
    ((step s Action.previous).zoomLevel = 1 ∧
      (step s Action.previous).panX = 0 ∧ (step s Action.previous).panY = 0) ∧
    ((step t Action.next).zoomLevel = 1 ∧
      (step t Action.next).panX = 0 ∧ (step t Action.next).panY = 0) ∧
    (∀ u : ViewerState,
      (step u (Action.wire (.success p))).currentImageIndex = 0 ∧
      (step u (Action.wire (.success p))).zoomLevel = 1 ∧
      (step u (Action.wire (.success p))).panX = 0 ∧
      (step u (Action.wire (.success p))).panY = 0) ∧
    (∀ u : ViewerState,
      (step u (Action.wire (.success q))).currentImageIndex = u.currentImageIndex ∧
      (step u (Action.wire (.success q))).zoomLevel = u.zoomLevel ∧
      (step u (Action.wire (.success q))).panX = u.panX ∧
      (step u (Action.wire (.success q))).panY = u.panY) := by
  refine ⟨?_, ?_, ?_, ?_⟩
  · by_cases hc : 0 < s.currentImageIndex
    · show (handlePrevious s).zoomLevel = 1 ∧ (handlePrevious s).panX = 0 ∧ (handlePrevious s).panY = 0
      unfold handlePrevious
      rw [if_pos hc]
      exact ⟨rfl, rfl, rfl⟩
    · exfalso
      apply hs
      show (handlePrevious s).currentImageIndex = s.currentImageIndex
      unfold handlePrevious
      rw [if_neg hc]
  · by_cases hc : t.currentImageIndex < (t.images.length : ℤ) - 1
    · show (handleNext t).zoomLevel = 1 ∧ (handleNext t).panX = 0 ∧ (handleNext t).panY = 0
      unfold handleNext
      rw [if_pos hc]
      exact ⟨rfl, rfl, rfl⟩
    · exfalso
      apply ht
      show (handleNext t).currentImageIndex = t.currentImageIndex
      unfold handleNext
      rw [if_neg hc]
  · intro u
    have hlen : 0 < (p.images.getD []).length := List.length_pos.mpr hp
    show (wiredImages u (.success p)).currentImageIndex = 0 ∧
      (wiredImages u (.success p)).zoomLevel = 1 ∧
      (wiredImages u (.success p)).panX = 0 ∧ (wiredImages u (.success p)).panY = 0
    simp only [wiredImages]
    rw [if_pos hlen]
    exact ⟨rfl, rfl, rfl, rfl⟩
  · intro u
    have hlen : ¬ 0 < (q.images.getD []).length := by rw [hq]; simp
    show (wiredImages u (.success q)).currentImageIndex = u.currentImageIndex ∧
      (wiredImages u (.success q)).zoomLevel = u.zoomLevel ∧
      (wiredImages u (.success q)).panX = u.panX ∧ (wiredImages u (.success q)).panY = u.panY
    simp only [wiredImages]
    rw [if_neg hlen]
    exact ⟨rfl, rfl, rfl, rfl⟩

theorem C6_reset_on_index_change_witness :
    ((step (run [Action.wire (.success ⟨some [imgA, imgB], some false⟩), Action.next])
          Action.previous).currentImageIndex
        ≠ (run [Action.wire (.success ⟨some [imgA, imgB], some false⟩),
          Action.next]).currentImageIndex ∧
      (step (run [Action.wire (.success ⟨some [imgA, imgB], some false⟩)])
          Action.next).currentImageIndex
        ≠ (run [Action.wire (.success ⟨some [imgA, imgB], some false⟩)]).currentImageIndex ∧
      (WirePayload.mk (some [imgA]) (some false)).images.getD [] ≠ [] ∧
      (WirePayload.mk (some []) (some false)).images.getD [] = []) ∧
    ((step (run [Action.wire (.success ⟨some [imgA, imgB], some false⟩), Action.next])
          Action.previous).zoomLevel = 1 ∧
      (step (run [Action.wire (.success ⟨some [imgA, imgB], some false⟩), Action.next])
          Action.previous).panX = 0 ∧
      (step (run [Action.wire (.success ⟨some [imgA, imgB], some false⟩), Action.next])
          Action.previous).panY = 0) ∧
    (∀ u : ViewerState,
      (step u (Action.wire (.success (WirePayload.mk (some [imgA]) (some false))))).currentImageIndex = 0 ∧
      (step u (Action.wire (.success (WirePayload.mk (some [imgA]) (some false))))).zoomLevel = 1 ∧
      (step u (Action.wire (.success (WirePayload.mk (some [imgA]) (some false))))).panX = 0 ∧
      (step u (Action.wire (.success (WirePayload.mk (some [imgA]) (some false))))).panY = 0) := by
  have h := C6_reset_on_index_change
    (run [Action.wire (.success ⟨some [imgA, imgB], some false⟩), Action.next])
    (run [Action.wire (.success ⟨some [imgA, imgB], some false⟩)])
    (WirePayload.mk (some [imgA]) (some false))
    (WirePayload.mk (some []) (some false))
    (by decide) (by decide) (by decide) (by decide)
  exact ⟨⟨by decide, by decide, by decide, by decide⟩, h.1, h.2.2.1⟩

/-- Claim C10, counterexample: the claim says isFirstImage is true
whenever the image set is empty. View a 3-image set at index 1 and then
deliver an empty set: the set is empty yet isFirstImage is false, because
the index is left at 1. -/
theorem C10_empty_isFirstImage_counterexample :
    (run [Action.wire (.success ⟨some [imgA, imgB, imgC], some false⟩), Action.next,
        Action.wire (.success ⟨some [], some false⟩)]).images = [] ∧
    isFirstImage (run [Action.wire (.success ⟨some [imgA, imgB, imgC], some false⟩), Action.next,
        Action.wire (.success ⟨some [], some false⟩)]) = false := by
  decide

/-- Claim C10, amended: on an empty image set the derived getters are
total: currentImageUrl, currentImageTitle and imageCounter return the
empty string and isLastImage is false in every reachable state (the index
stays nonnegative, so it never equals length - 1 = -1); isFirstImage,
however, merely reports whether the index equals 0, which can fail after
a nonempty set viewed at a positive index is replaced by an empty one. -/
theorem C10_empty_getters_total (acts : List Action) (h : (run acts).images = []) :
    currentImageUrl (run acts) = "" ∧
    currentImageTitle (run acts) = "" ∧
    imageCounter (run acts) = "" ∧
    isLastImage (run acts) = false ∧
    isFirstImage (run acts) = decide ((run acts).currentImageIndex = 0) := by
  have hlen : (run acts).images.length = 0 := by rw [h]; rfl
  have hi : 0 ≤ (run acts).currentImageIndex := (Inv_run acts).2.2.2.2
  refine ⟨?_, ?_, ?_, ?_, rfl⟩
  · unfold currentImageUrl
    rw [if_neg (by rw [hlen]; simp)]
  · unfold currentImageTitle
    rw [if_neg (by rw [hlen]; simp)]
  · unfold imageCounter
    rw [if_neg (by rw [hlen]; simp)]
  · exact decide_eq_false (by rw [hlen]; omega)

theorem C10_empty_getters_total_witness :
    (run [Action.wire (.success ⟨some [], some true⟩)]).images = [] ∧
    (currentImageUrl (run [Action.wire (.success ⟨some [], some true⟩)]) = "" ∧
      currentImageTitle (run [Action.wire (.success ⟨some [], some true⟩)]) = "" ∧
      imageCounter (run [Action.wire (.success ⟨some [], some true⟩)]) = "" ∧
      isLastImage (run [Action.wire (.success ⟨some [], some true⟩)]) = false ∧
      isFirstImage (run [Action.wire (.success ⟨some [], some true⟩)])
        = decide ((run [Action.wire (.success ⟨some [], some true⟩)]).currentImageIndex = 0)) :=
  ⟨by decide, C10_empty_getters_total [Action.wire (.success ⟨some [], some true⟩)] (by decide)⟩

end ImageViewer
